import Mathlib

/-!
Shallow embedding of the wedding-schedule application's core logic
(src/app/main.py and src/app/models.py): deadline computation, the
travel-estimate cache, trip grouping, check-in confirmation, alert
evaluation, venue-address propagation, schedule editing and photographer
deletion.

Modelling conventions:
* A calendar date is its ordinal day number (an Int, like Python's
  date.toordinal()); a clock time is minutes since midnight (an Int, in
  [0, 1440) for values parsed from an HH:MM form field); a datetime is
  minutes since the epoch (an Int).  datetime.combine(d, t) becomes
  d * 1440 + t, subtracting a timedelta subtracts minutes, and dt.time()
  becomes dt % 1440 (Int.emod, whose result lies in [0, 1440)).
* Database tables are Lists; a SQL query with .first() is List.find?; a
  SQLModel row update replaces the matched element in place; primary-key
  lookup finds the first row with the given id.
* HTTP-form parsing, authentication, photo-file handling and the HTTP
  responses are boundary concerns outside the modelled core: operations
  take already-parsed inputs (a blank form field becomes none), and the
  saved arrival-photo path is an abstract String.  The travel-estimator
  call in get_cached_route_minutes raises NameError on every execution
  (main.py never imports estimate_travel_minutes), and the surrounding
  bare except turns that into None, so the embedding of that call is the
  constant None.
* Python truthiness: a non-empty string is truthy; time objects are
  always truthy, so `x or y` on an optional time is an Option match.
-/

namespace WS

/-- One row of the schedule table (models.Schedule; the fields no modelled
operation reads, such as couple and raw_photographers, are omitted). -/
structure Schedule where
  id : Nat
  wedding_date : Int
  wedding_time : Option Int := none
  shoot_start_time : Option Int := none
  venue : String
  venue_address : Option String := none
  arrival_target_time : Option Int := none
  travel_minutes_default : Option Int := none
  main_name : Option String := none
  sub_name : Option String := none
deriving DecidableEq

/-- One row of the checkin table (models.Checkin; created_at and
updated_at carry no modelled semantics and are omitted). -/
structure Checkin where
  schedule_id : Nat
  photographer_name : String
  wake_time : Option Int := none
  depart_time : Option Int := none
  arrive_time : Option Int := none
  arrive_photo_path : Option String := none
deriving DecidableEq

/-- One row of the route-estimate cache table (models.RouteEstimate). -/
structure RouteEstimate where
  schedule_id : Nat
  photographer_name : String
  minutes : Int
  provider : String := "osrm"
deriving DecidableEq

/-- One row of the photographer table (models.Photographer; only the
fields the modelled operations read). -/
structure Photographer where
  id : Nat
  name : String
  address : Option String := none
  is_admin : Bool := false
deriving DecidableEq

/-- One row of the venue address registry (models.Venue). -/
structure Venue where
  name : String
  address : Option String := none
deriving DecidableEq

/-- The database state. -/
structure DB where
  schedules : List Schedule := []
  photographers : List Photographer := []
  checkins : List Checkin := []
  routes : List RouteEstimate := []
  venues : List Venue := []
deriving DecidableEq

/-- datetime.combine(date, time) in minutes. -/
def combine (d : Int) (t : Int) : Int := d * 1440 + t

/-- dt.time() of a datetime in minutes: the clock time of day. -/
def timeOfDay (dt : Int) : Int := dt % 1440

/-- Python truthiness of an optional string (None and "" are falsy). -/
def strTruthy : Option String → Bool
  | none => false
  | some a => !(a == "")

/-- Drop leading whitespace characters. -/
def dropLeadingWS : List Char → List Char
  | [] => []
  | c :: cs => if c.isWhitespace then dropLeadingWS cs else c :: cs

/-- Python str.strip(): remove leading and trailing whitespace. -/
def pystrip (s : String) : String :=
  ⟨(dropLeadingWS (dropLeadingWS s.data).reverse).reverse⟩

/-- Result record of compute_deadlines (main.py lines 180-201). -/
structure Deadlines where
  arrival_target_dt : Option Int
  wake_deadline : Option Int
  depart_deadline : Option Int
deriving DecidableEq

/-- compute_deadlines (main.py lines 180-201). -/
def compute_deadlines (s : Schedule) (travel_minutes : Option Int) : Deadlines :=
  match s.wedding_time with
  | none => ⟨none, none, none⟩
  | some wt =>
      let base_time : Int :=
        match s.arrival_target_time with
        | some t => t
        | none => timeOfDay (combine s.wedding_date wt - 120)
      let arrival_target_dt := combine s.wedding_date base_time
      let wake_deadline := arrival_target_dt - 120
      let depart_deadline :=
        match travel_minutes with
        | none => arrival_target_dt - 60
        | some m => arrival_target_dt - m
      ⟨some arrival_target_dt, some wake_deadline, some depart_deadline⟩

/-- The cache lookup inside get_cached_route_minutes (main.py 155-159). -/
def find_route (routes : List RouteEstimate) (sid : Nat) (pname : String) :
    Option RouteEstimate :=
  routes.find? (fun r => r.schedule_id == sid && r.photographer_name == pname)

/-- get_cached_route_minutes (main.py lines 153-178); returns the resolved
minutes and the resulting route table.  The name estimate_travel_minutes
at line 170 is unbound in main.py (route_utils.py defines it but nothing
ever imports it into main.py), so the call raises NameError on every
execution; the bare except at line 171 swallows it and mins is always
None, which makes the persist-on-success branch at lines 173-176 dead
code.  The address check at line 168 is kept for structure even though
both of its branches now yield the same result. -/
def get_cached_route_minutes (routes : List RouteEstimate) (s : Schedule)
    (pname : String) (paddr : String) :
    Option Int × List RouteEstimate :=
  match find_route routes s.id pname with
  | some cached => (some cached.minutes, routes)
  | none =>
    match s.travel_minutes_default with
    | some d => (some d, routes)
    | none =>
      if !(paddr == "") && strTruthy s.venue_address then (none, routes)
      else (none, routes)

/-- The fresh Checkin row created by get_or_create_checkin (main.py 142-152). -/
def blank_checkin (sid : Nat) (pname : String) : Checkin :=
  ⟨sid, pname, none, none, none, none⟩

/-- The (schedule_id, photographer_name) key predicate used by the Checkin
queries. -/
def ck_key (sid : Nat) (pname : String) (c : Checkin) : Bool :=
  c.schedule_id == sid && c.photographer_name == pname

/-- First Checkin row matching the key (the query in main.py 143-145). -/
def find_checkin (cks : List Checkin) (sid : Nat) (pname : String) :
    Option Checkin :=
  cks.find? (ck_key sid pname)

/-- Replace the first row matching p by its image under f. -/
def update_first (p : Checkin → Bool) (f : Checkin → Checkin) :
    List Checkin → List Checkin
  | [] => []
  | c :: cs => if p c then f c :: cs else c :: update_first p f cs

/-- get_or_create_checkin followed by an in-place row mutation f and
commit: update the existing row, or append a fresh mutated row. -/
def upsert_checkin (sid : Nat) (pname : String) (f : Checkin → Checkin)
    (cks : List Checkin) : List Checkin :=
  match find_checkin cks sid pname with
  | some _ => update_first (ck_key sid pname) f cks
  | none => cks ++ [f (blank_checkin sid pname)]

/-- The per-row mutation of check_wake (main.py 267-268): set wake_time if
unset. -/
def apply_wake (now : Int) (c : Checkin) : Checkin :=
  if c.wake_time = none then { c with wake_time := some now } else c

/-- The per-row mutation of check_depart (main.py 305-308): backfill
wake_time, then set depart_time if unset. -/
def apply_depart (now : Int) (c : Checkin) : Checkin :=
  let c1 := apply_wake now c
  if c1.depart_time = none then { c1 with depart_time := some now } else c1

/-- The per-row mutation of check_arrive (main.py 367-374): backfill wake
and depart, set arrive_time if unset, and always overwrite the photo. -/
def apply_arrive (now : Int) (photo : String) (c : Checkin) : Checkin :=
  let c1 := apply_depart now c
  let c2 :=
    if c1.arrive_time = none then { c1 with arrive_time := some now } else c1
  { c2 with arrive_photo_path := some photo }

/-- Is photographer uname assigned to s as main or sub (the SQL
disjunction in main.py 260, 298, 360)? -/
def is_assigned (uname : String) (s : Schedule) : Bool :=
  s.main_name == some uname || s.sub_name == some uname

/-- The sibling set of check_wake (main.py 257-262): same wedding_date,
photographer assigned; venue-independent. -/
def wake_siblings (schedules : List Schedule) (s0 : Schedule) (uname : String) :
    List Schedule :=
  schedules.filter (fun s => s.wedding_date == s0.wedding_date && is_assigned uname s)

/-- The sibling set of check_depart and check_arrive (main.py 294-300,
356-362): same wedding_date and same venue, photographer assigned. -/
def venue_siblings (schedules : List Schedule) (s0 : Schedule) (uname : String) :
    List Schedule :=
  schedules.filter (fun s =>
    s.wedding_date == s0.wedding_date && s.venue == s0.venue && is_assigned uname s)

/-- The confirmation loop shared by the three check endpoints: upsert each
sibling's Checkin with the per-row mutation f. -/
def confirm_fold (uname : String) (f : Checkin → Checkin)
    (sibs : List Schedule) (cks : List Checkin) : List Checkin :=
  sibs.foldl (fun acc s => upsert_checkin s.id uname f acc) cks

/-- Primary-key lookup of a schedule (session.get(Schedule, sid)). -/
def find_schedule (schedules : List Schedule) (sid : Nat) : Option Schedule :=
  schedules.find? (fun s => s.id == sid)

/-- POST /check/wake (main.py 240-272) for a logged-in non-admin user
named uname, at local time now. -/
def check_wake (db : DB) (sid : Nat) (uname : String) (now : Int) : DB :=
  match find_schedule db.schedules sid with
  | none => db
  | some s0 =>
    { db with checkins :=
        confirm_fold uname (apply_wake now) (wake_siblings db.schedules s0 uname) db.checkins }

/-- POST /check/depart (main.py 274-313). -/
def check_depart (db : DB) (sid : Nat) (uname : String) (now : Int) : DB :=
  match find_schedule db.schedules sid with
  | none => db
  | some s0 =>
    { db with checkins :=
        confirm_fold uname (apply_depart now) (venue_siblings db.schedules s0 uname) db.checkins }

/-- POST /check/arrive (main.py 316-379), after the photo-extension gate;
photo is the stored upload path. -/
def check_arrive (db : DB) (sid : Nat) (uname : String) (now : Int)
    (photo : String) : DB :=
  match find_schedule db.schedules sid with
  | none => db
  | some s0 =>
    { db with checkins :=
        confirm_fold uname (apply_arrive now photo) (venue_siblings db.schedules s0 uname) db.checkins }

/-- The own-Checkin ok flag of the alert evaluator (main.py 528-530):
bool(chk and chk.field). -/
def own_ok (cks : List Checkin) (sid : Nat) (name : String)
    (g : Checkin → Option Int) : Bool :=
  match find_checkin cks sid name with
  | some c => (g c).isSome
  | none => false

/-- The grouped same-day same-venue lookup of the alert evaluator
(main.py 533-555): does any Checkin of this photographer, joined to a
schedule with the same wedding_date and venue, have the field set? -/
def group_ok (db : DB) (s : Schedule) (name : String)
    (g : Checkin → Option Int) : Bool :=
  db.checkins.any (fun c =>
    c.photographer_name == name && (g c).isSome &&
      db.schedules.any (fun s2 =>
        s2.id == c.schedule_id && s2.wedding_date == s.wedding_date &&
          s2.venue == s.venue))

/-- The per-row flags computed by admin_alerts (main.py 511-577) and
admin_alerts_feed (main.py 604-650). -/
structure AlertFlags where
  wake_ok : Bool
  depart_ok : Bool
  arrive_ok : Bool
  wake_overdue : Bool
  depart_overdue : Bool
  arrive_overdue : Bool
deriving DecidableEq

/-- One overdue flag (main.py 558-560): deadline is not None, now has
reached it, and the action is not ok. -/
def overdue_flag (deadline : Option Int) (now : Int) (ok : Bool) : Bool :=
  match deadline with
  | none => false
  | some d => decide (d ≤ now) && !ok

/-- The flag computation for one (schedule, role, name) row of the alert
evaluator (main.py 520-560 and 612-650; both endpoints share it).
travel is the already-resolved travel estimate. -/
def eval_flags (db : DB) (s : Schedule) (name : String) (now : Int)
    (travel : Option Int) : AlertFlags :=
  let d := compute_deadlines s travel
  let wake_ok := own_ok db.checkins s.id name Checkin.wake_time
  let arrive_ok0 := own_ok db.checkins s.id name Checkin.arrive_time
  let arrive_ok :=
    if arrive_ok0 then arrive_ok0 else group_ok db s name Checkin.arrive_time
  let depart_ok0 := own_ok db.checkins s.id name Checkin.depart_time
  let depart_ok :=
    if depart_ok0 then depart_ok0 else group_ok db s name Checkin.depart_time
  { wake_ok := wake_ok
    depart_ok := depart_ok
    arrive_ok := arrive_ok
    wake_overdue := overdue_flag d.wake_deadline now wake_ok
    depart_overdue := overdue_flag d.depart_deadline now depart_ok
    arrive_overdue := overdue_flag d.arrival_target_dt now arrive_ok }

/-- The per-schedule update test of propagate_hall_address (main.py 102):
the schedule is at the hall and its stripped address differs. -/
def needs_update (hn ad : String) (s : Schedule) : Bool :=
  s.venue == hn && !(pystrip (s.venue_address.getD "") == ad)

/-- propagate_hall_address (main.py 91-116): push a hall's address to every
schedule with that venue name, and if anything changed delete the cached
route estimates of all schedules at that venue. -/
def propagate_hall_address (db : DB) (hall_name address : String) : DB :=
  let hn := pystrip hall_name
  let ad := pystrip address
  if hn == "" || ad == "" then db
  else if db.schedules.countP (needs_update hn ad) == 0 then db
  else
    { db with
      schedules := db.schedules.map (fun s =>
        if needs_update hn ad s then { s with venue_address := some ad } else s)
      routes := db.routes.filter (fun r =>
        !(db.schedules.any (fun s => s.venue == hn && s.id == r.schedule_id))) }

/-- The Venue-registry step at the end of admin_edit_schedule_save
(main.py 1210-1221): a provided address updates or creates the Venue row;
a blank one is filled from an existing Venue row with a truthy address. -/
def venue_registry_step (venues : List Venue) (s3 : Schedule) :
    Schedule × List Venue :=
  match s3.venue_address with
  | some a =>
      (s3,
        if venues.any (fun x => x.name == s3.venue) then
          venues.map (fun x =>
            if x.name == s3.venue then { x with address := some a } else x)
        else venues ++ [{ name := s3.venue, address := some a }])
  | none =>
      match venues.find? (fun x => x.name == s3.venue) with
      | some vv =>
          (if strTruthy vv.address then { s3 with venue_address := vv.address }
           else s3, venues)
      | none => (s3, venues)

/-- The field assignments of admin_edit_schedule_save (main.py 1163-1208)
on the fetched schedule, including the two write-time derivations: an
empty shoot_start_time form becomes wedding_time − 1h, and an empty
arrival_target_time form becomes shoot_start_time − 30min. -/
def edited_schedule (s : Schedule) (wedding_date : Int)
    (wedding_time : Option Int) (venue : String) (venue_address : Option String)
    (shoot_start_time arrival_target_time : Option Int)
    (main_name sub_name : Option String) : Schedule :=
  let shoot_t : Option Int :=
    match shoot_start_time with
    | some t => some t
    | none =>
      match wedding_time with
      | some wt => some (timeOfDay (combine wedding_date wt - 60))
      | none => none
  let arr_t : Option Int :=
    match arrival_target_time with
    | some t => some t
    | none =>
      match shoot_t with
      | some st => some (timeOfDay (combine wedding_date st - 30))
      | none => none
  { s with
    wedding_date := wedding_date
    wedding_time := wedding_time
    shoot_start_time := shoot_t
    arrival_target_time := arr_t
    venue := pystrip venue
    venue_address := venue_address
    main_name := main_name
    sub_name := sub_name }

/-- POST /admin/schedules/{sid}/edit (main.py 1130-1226) with all form
fields already parsed (blank fields are none; times are HH:MM minutes).
The couple and raw_photographers fields carry no modelled semantics. -/
def admin_edit_schedule_save (db : DB) (sid : Nat) (wedding_date : Int)
    (wedding_time : Option Int) (venue : String) (venue_address : Option String)
    (shoot_start_time arrival_target_time : Option Int)
    (main_name sub_name : Option String) : DB :=
  match find_schedule db.schedules sid with
  | none => db
  | some s =>
    let p := venue_registry_step db.venues
      (edited_schedule s wedding_date wedding_time venue venue_address
        shoot_start_time arrival_target_time main_name sub_name)
    { db with
      schedules := db.schedules.map (fun t => if t.id == sid then p.1 else t)
      venues := p.2 }

/-- POST /admin/photographers/{pid}/delete (main.py 994-1017): refuse when
the row is missing, is the admin, or is still referenced by a schedule;
otherwise delete the photographer and every Checkin bearing the name. -/
def admin_delete_photographer (db : DB) (pid : Nat) : DB :=
  match db.photographers.find? (fun q => q.id == pid) with
  | none => db
  | some p =>
    if p.is_admin then db
    else if db.schedules.any (fun s =>
        s.main_name == some p.name || s.sub_name == some p.name) then db
    else
      { db with
        checkins := db.checkins.filter (fun c => !(c.photographer_name == p.name))
        photographers := db.photographers.filter (fun q => !(q.id == pid)) }

/-- The staged-progress implication chain on one Checkin row: arrive
implies depart, depart implies wake. -/
def staged (c : Checkin) : Prop :=
  (c.arrive_time ≠ none → c.depart_time ≠ none) ∧
    (c.depart_time ≠ none → c.wake_time ≠ none)

instance (c : Checkin) : Decidable (staged c) := by
  unfold staged
  infer_instance

/-- A row mutation that preserves the (schedule_id, photographer_name)
key, as the three confirmation mutations do. -/
def keeps_keys (f : Checkin → Checkin) : Prop :=
  ∀ c, (f c).schedule_id = c.schedule_id ∧
    (f c).photographer_name = c.photographer_name

/-- Concrete fixture: a schedule whose wedding is at 01:00, so the
arrival-target fallback wraps past midnight. -/
def sWrap : Schedule :=
  { id := 1, wedding_date := 738000, wedding_time := some 60, venue := "A홀" }

/-- Concrete fixture: first of two same-day same-venue schedules for one
photographer. -/
def sAlertA : Schedule :=
  { id := 1, wedding_date := 738000, wedding_time := some 780, venue := "B홀",
    main_name := some "박작가" }

/-- Concrete fixture: second schedule of the pair; its own Checkin row was
never written. -/
def sAlertB : Schedule :=
  { id := 2, wedding_date := 738000, wedding_time := some 840, venue := "B홀",
    main_name := some "박작가" }

/-- Concrete fixture: the photographer woke (Checkin on schedule 1 only). -/
def dbAlert : DB :=
  { schedules := [sAlertA, sAlertB],
    checkins := [{ schedule_id := 1, photographer_name := "박작가",
                   wake_time := some 1062720540 }] }

/-- Concrete fixture for the edit-time derivation of shoot/arrival times. -/
def dbEditTimes : DB :=
  { schedules := [{ id := 1, wedding_date := 738000, venue := "C홀" }] }

/-- Concrete fixture: a schedule with a cached route estimate, about to be
edited to a new venue address. -/
def dbEditRoutes : DB :=
  { schedules := [{ id := 1, wedding_date := 738000, venue := "D홀",
                    venue_address := some "주소A" }],
    routes := [{ schedule_id := 1, photographer_name := "최작가", minutes := 30 }] }

/-- Concrete fixture: the bootstrap admin account, referenced by no
schedule. -/
def dbAdminDel : DB :=
  { photographers := [{ id := 1, name := "관리자", is_admin := true }] }

/-- Concrete fixture: a non-admin photographer with a stray Checkin and no
schedule referencing them. -/
def dbDelW : DB :=
  { photographers := [{ id := 2, name := "정작가" }],
    checkins := [{ schedule_id := 7, photographer_name := "정작가",
                   wake_time := some 1 }] }

/-- Concrete fixture: a non-admin photographer referenced by a schedule. -/
def dbDelRef : DB :=
  { photographers := [{ id := 3, name := "한작가" }],
    schedules := [{ id := 5, wedding_date := 738000, venue := "H홀",
                    main_name := some "한작가" }] }

/-- Concrete fixture: two schedules at one venue plus one at another, each
with a cached route estimate. -/
def dbProp : DB :=
  { schedules := [{ id := 1, wedding_date := 738000, venue := "F홀",
                    venue_address := some "옛주소" },
                  { id := 2, wedding_date := 738000, venue := "G홀",
                    venue_address := some "딴주소" }],
    routes := [{ schedule_id := 1, photographer_name := "김작가", minutes := 20 },
               { schedule_id := 2, photographer_name := "김작가", minutes := 40 }] }

/-- Concrete fixture: reference schedule for the confirmation witnesses. -/
def sW1 : Schedule :=
  { id := 1, wedding_date := 738000, wedding_time := some 780, venue := "E홀",
    venue_address := some "주소B", main_name := some "김작가",
    sub_name := some "이작가" }

/-- Concrete fixture: a sibling schedule, same day and venue, same main
photographer. -/
def sW2 : Schedule :=
  { id := 2, wedding_date := 738000, wedding_time := some 900, venue := "E홀",
    main_name := some "김작가" }

/-- Concrete fixture database for the confirmation witnesses. -/
def dbW : DB := { schedules := [sW1, sW2] }

/-! Helper lemmas about keys, lookups, upserts and the confirmation fold. -/

theorem ck_key_eq_true {sid : Nat} {p : String} {c : Checkin} :
    ck_key sid p c = true ↔ c.schedule_id = sid ∧ c.photographer_name = p := by
  simp [ck_key]

theorem ck_key_map {f : Checkin → Checkin} (hf : keeps_keys f)
    (sid : Nat) (p : String) (c : Checkin) :
    ck_key sid p (f c) = ck_key sid p c := by
  unfold ck_key
  rw [(hf c).1, (hf c).2]

theorem ck_key_blank (sid : Nat) (p : String) :
    ck_key sid p (blank_checkin sid p) = true := by
  simp [ck_key, blank_checkin]

theorem keys_disjoint {sid sid2 : Nat} {p p2 : String}
    (h : sid2 ≠ sid ∨ p2 ≠ p) (c : Checkin) (hc : ck_key sid p c = true) :
    ck_key sid2 p2 c = false := by
  rcases ck_key_eq_true.mp hc with ⟨h1, h2⟩
  unfold ck_key
  rcases h with h | h
  · have hb : (c.schedule_id == sid2) = false := by
      rw [h1]
      exact beq_eq_false_iff_ne.mpr (fun e => h e.symm)
    simp [hb]
  · have hb : (c.photographer_name == p2) = false := by
      rw [h2]
      exact beq_eq_false_iff_ne.mpr (fun e => h e.symm)
    simp [hb]

theorem find_checkin_cons_pos {a : Checkin} {cks : List Checkin}
    {sid : Nat} {p : String} (h : ck_key sid p a = true) :
    find_checkin (a :: cks) sid p = some a :=
  List.find?_cons_of_pos _ h

theorem find_checkin_cons_neg {a : Checkin} {cks : List Checkin}
    {sid : Nat} {p : String} (h : ck_key sid p a = false) :
    find_checkin (a :: cks) sid p = find_checkin cks sid p :=
  List.find?_cons_of_neg _ (by simp [h])

theorem find_checkin_append_right {cks l2 : List Checkin} {sid : Nat}
    {p : String} (h : find_checkin cks sid p = none) :
    find_checkin (cks ++ l2) sid p = find_checkin l2 sid p := by
  unfold find_checkin at *
  rw [List.find?_append, h]
  rfl

theorem find_update_first {f : Checkin → Checkin} (hf : keeps_keys f)
    {sid : Nat} {p : String} {cks : List Checkin} {c : Checkin}
    (h : find_checkin cks sid p = some c) :
    find_checkin (update_first (ck_key sid p) f cks) sid p = some (f c) := by
  induction cks with
  | nil => simp [find_checkin] at h
  | cons a as ih =>
    by_cases hk : ck_key sid p a = true
    · rw [find_checkin_cons_pos hk] at h
      obtain rfl : a = c := by injection h
      simp only [update_first, hk, if_true]
      exact find_checkin_cons_pos (by rw [ck_key_map hf]; exact hk)
    · have hk' : ck_key sid p a = false := by
        cases hh : ck_key sid p a
        · rfl
        · exact absurd hh hk
      rw [find_checkin_cons_neg hk'] at h
      simp only [update_first, hk', Bool.false_eq_true, if_false]
      rw [find_checkin_cons_neg hk']
      exact ih h

theorem find_update_first_other {f : Checkin → Checkin} (hf : keeps_keys f)
    {sid sid2 : Nat} {p p2 : String} (hne : sid2 ≠ sid ∨ p2 ≠ p)
    (cks : List Checkin) :
    find_checkin (update_first (ck_key sid p) f cks) sid2 p2 =
      find_checkin cks sid2 p2 := by
  induction cks with
  | nil => rfl
  | cons a as ih =>
    by_cases hk : ck_key sid p a = true
    · have h2 : ck_key sid2 p2 a = false := keys_disjoint hne a hk
      have h2f : ck_key sid2 p2 (f a) = false := by
        rw [ck_key_map hf]
        exact h2
      simp only [update_first, hk, if_true]
      rw [find_checkin_cons_neg h2f, find_checkin_cons_neg h2]
    · have hk' : ck_key sid p a = false := by
        cases hh : ck_key sid p a
        · rfl
        · exact absurd hh hk
      simp only [update_first, hk', Bool.false_eq_true, if_false]
      by_cases h2 : ck_key sid2 p2 a = true
      · rw [find_checkin_cons_pos h2, find_checkin_cons_pos h2]
      · have h2' : ck_key sid2 p2 a = false := by
          cases hh : ck_key sid2 p2 a
          · rfl
          · exact absurd hh h2
        rw [find_checkin_cons_neg h2', find_checkin_cons_neg h2']
        exact ih

theorem find_upsert_self {f : Checkin → Checkin} (hf : keeps_keys f)
    (sid : Nat) (p : String) (cks : List Checkin) :
    find_checkin (upsert_checkin sid p f cks) sid p =
      some (f ((find_checkin cks sid p).getD (blank_checkin sid p))) := by
  unfold upsert_checkin
  cases h : find_checkin cks sid p with
  | none =>
    rw [find_checkin_append_right h]
    simp only [Option.getD]
    exact find_checkin_cons_pos (by rw [ck_key_map hf]; exact ck_key_blank sid p)
  | some c =>
    rw [find_update_first hf h]
    rfl

theorem find_upsert_other {f : Checkin → Checkin} (hf : keeps_keys f)
    {sid sid2 : Nat} {p p2 : String} (hne : sid2 ≠ sid ∨ p2 ≠ p)
    (cks : List Checkin) :
    find_checkin (upsert_checkin sid p f cks) sid2 p2 =
      find_checkin cks sid2 p2 := by
  unfold upsert_checkin
  cases h : find_checkin cks sid p with
  | none =>
    have hb : ck_key sid2 p2 (f (blank_checkin sid p)) = false := by
      rw [ck_key_map hf]
      exact keys_disjoint hne _ (ck_key_blank sid p)
    cases h2 : find_checkin cks sid2 p2 with
    | none =>
      rw [find_checkin_append_right h2, find_checkin_cons_neg hb]
      rfl
    | some c =>
      unfold find_checkin at h2 ⊢
      rw [List.find?_append, h2]
      rfl
  | some c =>
    exact find_update_first_other hf hne cks

theorem confirm_fold_nil {uname : String} {f : Checkin → Checkin}
    {cks : List Checkin} : confirm_fold uname f [] cks = cks := rfl

theorem confirm_fold_cons {uname : String} {f : Checkin → Checkin}
    {s : Schedule} {ss : List Schedule} {cks : List Checkin} :
    confirm_fold uname f (s :: ss) cks =
      confirm_fold uname f ss (upsert_checkin s.id uname f cks) := rfl

theorem not_and_to_ne {sid2 : Nat} {p2 uname : String} {s : Schedule}
    (h : ¬(s.id = sid2 ∧ uname = p2)) : sid2 ≠ s.id ∨ p2 ≠ uname := by
  by_cases hs : s.id = sid2
  · right
    intro hp
    exact h ⟨hs, hp.symm⟩
  · left
    exact fun e => hs e.symm

theorem find_confirm_fold_other {f : Checkin → Checkin} {uname : String}
    (hf : keeps_keys f) {sid2 : Nat} {p2 : String}
    (sibs : List Schedule) (cks : List Checkin)
    (h : ∀ s ∈ sibs, ¬(s.id = sid2 ∧ uname = p2)) :
    find_checkin (confirm_fold uname f sibs cks) sid2 p2 =
      find_checkin cks sid2 p2 := by
  induction sibs generalizing cks with
  | nil => rfl
  | cons s ss ih =>
    rw [confirm_fold_cons,
      ih _ (fun t ht => h t (List.mem_cons_of_mem _ ht)),
      find_upsert_other hf (not_and_to_ne (h s (List.mem_cons_self _ _)))]

theorem find_confirm_fold_preserve {f : Checkin → Checkin} {uname : String}
    {g : Checkin → Option Int} {v : Int} (hf : keeps_keys f)
    (hp : ∀ c, g c = some v → g (f c) = some v) {sid2 : Nat} {p2 : String}
    (sibs : List Schedule) (cks : List Checkin)
    (h : (find_checkin cks sid2 p2).bind g = some v) :
    (find_checkin (confirm_fold uname f sibs cks) sid2 p2).bind g = some v := by
  induction sibs generalizing cks with
  | nil => exact h
  | cons s ss ih =>
    rw [confirm_fold_cons]
    apply ih
    by_cases hk : s.id = sid2 ∧ uname = p2
    · obtain ⟨h1, h2⟩ := hk
      subst h1
      subst h2
      rw [find_upsert_self hf]
      cases hc : find_checkin cks s.id uname with
      | none =>
        rw [hc] at h
        simp at h
      | some c =>
        rw [hc] at h
        simp only [Option.bind_some, Option.some_bind] at h
        simp [hp c h]
    · rw [find_upsert_other hf (not_and_to_ne hk)]
      exact h

theorem find_confirm_fold_photo_preserve {f : Checkin → Checkin}
    {uname : String} {g : Checkin → Option String} {v : String}
    (hf : keeps_keys f)
    (hp : ∀ c, g c = some v → g (f c) = some v) {sid2 : Nat} {p2 : String}
    (sibs : List Schedule) (cks : List Checkin)
    (h : (find_checkin cks sid2 p2).bind g = some v) :
    (find_checkin (confirm_fold uname f sibs cks) sid2 p2).bind g = some v := by
  induction sibs generalizing cks with
  | nil => exact h
  | cons s ss ih =>
    rw [confirm_fold_cons]
    apply ih
    by_cases hk : s.id = sid2 ∧ uname = p2
    · obtain ⟨h1, h2⟩ := hk
      subst h1
      subst h2
      rw [find_upsert_self hf]
      cases hc : find_checkin cks s.id uname with
      | none =>
        rw [hc] at h
        simp at h
      | some c =>
        rw [hc] at h
        simp only [Option.bind_some, Option.some_bind] at h
        simp [hp c h]
    · rw [find_upsert_other hf (not_and_to_ne hk)]
      exact h

theorem find_confirm_fold_sets {f : Checkin → Checkin} {uname : String}
    {g : Checkin → Option Int} {d : Int} (hf : keeps_keys f)
    (hset : ∀ c, g (f c) = some ((g c).getD d)) {sid2 : Nat}
    (hblank : g (blank_checkin sid2 uname) = none)
    (sibs : List Schedule) (cks : List Checkin)
    (hmem : ∃ s ∈ sibs, s.id = sid2) :
    (find_checkin (confirm_fold uname f sibs cks) sid2 uname).bind g =
      some (((find_checkin cks sid2 uname).bind g).getD d) := by
  induction sibs generalizing cks with
  | nil =>
    rcases hmem with ⟨s, hs, _⟩
    cases hs
  | cons s ss ih =>
    rw [confirm_fold_cons]
    by_cases hrest : ∃ t ∈ ss, t.id = sid2
    · rw [ih _ hrest]
      congr 1
      by_cases hid : s.id = sid2
      · subst hid
        rw [find_upsert_self hf]
        cases hc : find_checkin cks s.id uname with
        | none => simp [hset, hblank]
        | some c => simp [hset]
      · rw [find_upsert_other hf (Or.inl (fun e => hid e.symm))]
    · have hid : s.id = sid2 := by
        rcases hmem with ⟨t, ht, htid⟩
        rcases List.mem_cons.mp ht with rfl | htss
        · exact htid
        · exact absurd ⟨t, htss, htid⟩ hrest
      subst hid
      apply find_confirm_fold_preserve hf
        (fun c hc => by rw [hset c, hc]; rfl)
      rw [find_upsert_self hf]
      cases hc : find_checkin cks s.id uname with
      | none => simp [hset, hblank]
      | some c => simp [hset]

theorem find_confirm_fold_const {f : Checkin → Checkin} {uname : String}
    {g : Checkin → Option String} {k : String} (hf : keeps_keys f)
    (hconst : ∀ c, g (f c) = some k) {sid2 : Nat}
    (sibs : List Schedule) (cks : List Checkin)
    (hmem : ∃ s ∈ sibs, s.id = sid2) :
    (find_checkin (confirm_fold uname f sibs cks) sid2 uname).bind g =
      some k := by
  induction sibs generalizing cks with
  | nil =>
    rcases hmem with ⟨s, hs, _⟩
    cases hs
  | cons s ss ih =>
    rw [confirm_fold_cons]
    by_cases hrest : ∃ t ∈ ss, t.id = sid2
    · exact ih _ hrest
    · have hid : s.id = sid2 := by
        rcases hmem with ⟨t, ht, htid⟩
        rcases List.mem_cons.mp ht with rfl | htss
        · exact htid
        · exact absurd ⟨t, htss, htid⟩ hrest
      subst hid
      apply find_confirm_fold_photo_preserve hf
        (fun c _ => hconst c)
      rw [find_upsert_self hf]
      simp [hconst]

theorem mem_update_first {p : Checkin → Bool} {f : Checkin → Checkin}
    {cks : List Checkin} {c : Checkin} (h : c ∈ update_first p f cks) :
    c ∈ cks ∨ ∃ a ∈ cks, c = f a := by
  induction cks with
  | nil => simp [update_first] at h
  | cons a as ih =>
    by_cases hp : p a = true
    · simp only [update_first, hp, if_true] at h
      rcases List.mem_cons.mp h with rfl | hmem
      · exact Or.inr ⟨a, List.mem_cons_self _ _, rfl⟩
      · exact Or.inl (List.mem_cons_of_mem _ hmem)
    · simp only [update_first, hp, if_false] at h
      rcases List.mem_cons.mp h with rfl | hmem
      · exact Or.inl (List.mem_cons_self _ _)
      · rcases ih hmem with h1 | ⟨b, hb, rfl⟩
        · exact Or.inl (List.mem_cons_of_mem _ h1)
        · exact Or.inr ⟨b, List.mem_cons_of_mem _ hb, rfl⟩

theorem mem_upsert {sid : Nat} {p : String} {f : Checkin → Checkin}
    {cks : List Checkin} {c : Checkin} (h : c ∈ upsert_checkin sid p f cks) :
    c ∈ cks ∨ (∃ a ∈ cks, c = f a) ∨ c = f (blank_checkin sid p) := by
  unfold upsert_checkin at h
  cases hfind : find_checkin cks sid p with
  | none =>
    rw [hfind] at h
    rcases List.mem_append.mp h with h1 | h2
    · exact Or.inl h1
    · right
      right
      simpa using h2
  | some c0 =>
    rw [hfind] at h
    rcases mem_update_first h with h1 | ⟨a, ha, rfl⟩
    · exact Or.inl h1
    · exact Or.inr (Or.inl ⟨a, ha, rfl⟩)

theorem mem_confirm_fold {uname : String} {f : Checkin → Checkin}
    (P : Checkin → Prop) (hf : ∀ c, P c → P (f c))
    (hb : ∀ sid1, P (f (blank_checkin sid1 uname)))
    (sibs : List Schedule) (cks : List Checkin) (h : ∀ c ∈ cks, P c) :
    ∀ c ∈ confirm_fold uname f sibs cks, P c := by
  induction sibs generalizing cks with
  | nil => exact h
  | cons s ss ih =>
    rw [confirm_fold_cons]
    apply ih
    intro c hc
    rcases mem_upsert hc with h1 | ⟨a, ha, rfl⟩ | rfl
    · exact h c h1
    · exact hf a (h a ha)
    · exact hb s.id

/-! Field-level lemmas about the three per-row confirmation mutations. -/

theorem keeps_apply_wake (t : Int) : keeps_keys (apply_wake t) := by
  intro c
  unfold apply_wake
  split <;> exact ⟨rfl, rfl⟩

theorem keeps_apply_depart (t : Int) : keeps_keys (apply_depart t) := by
  intro c
  cases hw : c.wake_time <;> cases hd : c.depart_time <;>
    simp [apply_depart, apply_wake, hw, hd]

theorem keeps_apply_arrive (t : Int) (ph : String) :
    keeps_keys (apply_arrive t ph) := by
  intro c
  cases hw : c.wake_time <;> cases hd : c.depart_time <;>
    cases ha : c.arrive_time <;>
      simp [apply_arrive, apply_depart, apply_wake, hw, hd, ha]

theorem apply_wake_wake (t : Int) (c : Checkin) :
    (apply_wake t c).wake_time = some (c.wake_time.getD t) := by
  cases h : c.wake_time <;> simp [apply_wake, h]

theorem apply_wake_depart (t : Int) (c : Checkin) :
    (apply_wake t c).depart_time = c.depart_time := by
  unfold apply_wake
  split <;> rfl

theorem apply_wake_arrive (t : Int) (c : Checkin) :
    (apply_wake t c).arrive_time = c.arrive_time := by
  unfold apply_wake
  split <;> rfl

theorem apply_depart_wake (t : Int) (c : Checkin) :
    (apply_depart t c).wake_time = some (c.wake_time.getD t) := by
  cases hw : c.wake_time <;> cases hd : c.depart_time <;>
    simp [apply_depart, apply_wake, hw, hd]

theorem apply_depart_depart (t : Int) (c : Checkin) :
    (apply_depart t c).depart_time = some (c.depart_time.getD t) := by
  cases hw : c.wake_time <;> cases hd : c.depart_time <;>
    simp [apply_depart, apply_wake, hw, hd]

theorem apply_depart_arrive (t : Int) (c : Checkin) :
    (apply_depart t c).arrive_time = c.arrive_time := by
  cases hw : c.wake_time <;> cases hd : c.depart_time <;>
    simp [apply_depart, apply_wake, hw, hd]

theorem apply_arrive_wake (t : Int) (ph : String) (c : Checkin) :
    (apply_arrive t ph c).wake_time = some (c.wake_time.getD t) := by
  cases hw : c.wake_time <;> cases hd : c.depart_time <;>
    cases ha : c.arrive_time <;>
      simp [apply_arrive, apply_depart, apply_wake, hw, hd, ha]

theorem apply_arrive_depart (t : Int) (ph : String) (c : Checkin) :
    (apply_arrive t ph c).depart_time = some (c.depart_time.getD t) := by
  cases hw : c.wake_time <;> cases hd : c.depart_time <;>
    cases ha : c.arrive_time <;>
      simp [apply_arrive, apply_depart, apply_wake, hw, hd, ha]

theorem apply_arrive_arrive (t : Int) (ph : String) (c : Checkin) :
    (apply_arrive t ph c).arrive_time = some (c.arrive_time.getD t) := by
  cases hw : c.wake_time <;> cases hd : c.depart_time <;>
    cases ha : c.arrive_time <;>
      simp [apply_arrive, apply_depart, apply_wake, hw, hd, ha]

theorem apply_arrive_photo (t : Int) (ph : String) (c : Checkin) :
    (apply_arrive t ph c).arrive_photo_path = some ph := by
  cases hw : c.wake_time <;> cases hd : c.depart_time <;>
    cases ha : c.arrive_time <;>
      simp [apply_arrive, apply_depart, apply_wake, hw, hd, ha]

theorem wake_blank (sid : Nat) (p : String) :
    (blank_checkin sid p).wake_time = none := rfl

theorem staged_blank (sid : Nat) (p : String) :
    staged (blank_checkin sid p) := by
  simp [staged, blank_checkin]

theorem staged_apply_wake (t : Int) (c : Checkin) (h : staged c) :
    staged (apply_wake t c) := by
  rcases h with ⟨h1, h2⟩
  unfold staged apply_wake
  split
  · exact ⟨h1, fun _ => by simp⟩
  · exact ⟨h1, h2⟩

theorem staged_apply_depart (t : Int) (c : Checkin) :
    staged (apply_depart t c) := by
  constructor
  · intro _
    rw [apply_depart_depart]
    simp
  · intro _
    rw [apply_depart_wake]
    simp

theorem staged_apply_arrive (t : Int) (ph : String) (c : Checkin) :
    staged (apply_arrive t ph c) := by
  constructor
  · intro _
    rw [apply_arrive_depart]
    simp
  · intro _
    rw [apply_arrive_wake]
    simp

/-! Claim C1: compute_deadlines. -/

/-- C1, counterexample: for a wedding at 01:00 with no arrival-target
override, compute_deadlines recombines the wrapped time-of-day with the
wedding date, so arrival_target_dt is 23:00 of the wedding day, not the
wedding datetime minus 2 hours (23:00 of the previous day). -/
theorem compute_deadlines_wrap_cex :
    sWrap.wedding_time = some 60 ∧ sWrap.arrival_target_time = none ∧
    (compute_deadlines sWrap none).arrival_target_dt ≠
      some (combine sWrap.wedding_date 60 - 120) := by
  decide

/-- C1, amended: with wedding_time absent all three outputs are none;
otherwise arrival_target_dt is arrival_target_time combined with
wedding_date when set, else the time-of-day of (wedding datetime − 2h)
recombined with wedding_date (equal to wedding datetime − 2h whenever
02:00 ≤ wedding_time < 24:00); wake_deadline is arrival_target_dt − 2h,
and depart_deadline is arrival_target_dt minus the travel estimate when
available, else minus 60 minutes. -/
theorem compute_deadlines_spec (s : Schedule) (tm : Option Int) :
    (s.wedding_time = none →
      compute_deadlines s tm = ⟨none, none, none⟩) ∧
    (∀ wt, s.wedding_time = some wt →
      (∀ t, s.arrival_target_time = some t →
        (compute_deadlines s tm).arrival_target_dt =
          some (combine s.wedding_date t)) ∧
      (s.arrival_target_time = none →
        (compute_deadlines s tm).arrival_target_dt =
          some (combine s.wedding_date
            (timeOfDay (combine s.wedding_date wt - 120))) ∧
        (120 ≤ wt → wt < 1440 →
          (compute_deadlines s tm).arrival_target_dt =
            some (combine s.wedding_date wt - 120))) ∧
      (∀ atd, (compute_deadlines s tm).arrival_target_dt = some atd →
        (compute_deadlines s tm).wake_deadline = some (atd - 120) ∧
        (tm = none →
          (compute_deadlines s tm).depart_deadline = some (atd - 60)) ∧
        (∀ m, tm = some m →
          (compute_deadlines s tm).depart_deadline = some (atd - m)))) := by
  constructor
  · intro h
    simp [compute_deadlines, h]
  · intro wt hwt
    refine ⟨?_, ?_, ?_⟩
    · intro t ht
      simp [compute_deadlines, hwt, ht]
    · intro ht
      constructor
      · simp [compute_deadlines, hwt, ht]
      · intro h1 h2
        simp only [compute_deadlines, hwt, ht, combine, timeOfDay]
        congr 1
        omega
    · intro atd hatd
      cases hat : s.arrival_target_time <;> cases htm : tm <;>
        simp [compute_deadlines, hwt, hat, htm] at hatd ⊢ <;> omega

/-- C1, witness of the amended theorem at a concrete schedule. -/
theorem compute_deadlines_spec_witness :
    (compute_deadlines sW1 (some 45)).arrival_target_dt =
      some (combine sW1.wedding_date 780 - 120) ∧
    (compute_deadlines sW1 (some 45)).wake_deadline =
      some (combine sW1.wedding_date 780 - 240) := by
  have h := (compute_deadlines_spec sW1 (some 45)).2 780 (by decide)
  have h1 := (h.2.1 (by decide)).2 (by decide) (by decide)
  have h2 := (h.2.2 (combine sW1.wedding_date 780 - 120) h1).1
  refine ⟨h1, ?_⟩
  rw [h2]
  decide

/-! Claim C3: get_cached_route_minutes. -/

/-- C3: at an input satisfying every precondition of the claim's
estimator step — empty cache, no manual default, both the photographer
address and the venue address non-empty — the program returns unknown and
persists nothing, because the estimator call raises NameError (the name
is never imported into main.py) and the bare except maps it to None; the
claimed invoke-and-persist-on-success behaviour cannot occur. -/
theorem get_cached_route_minutes_estimator_dead :
    find_route [] sW1.id "김작가" = none ∧
    sW1.travel_minutes_default = none ∧
    "서울시" ≠ "" ∧ strTruthy sW1.venue_address = true ∧
    get_cached_route_minutes [] sW1 "김작가" "서울시" = (none, []) := by
  decide

/-! Reduction lemmas for the three confirmation endpoints. -/

theorem check_wake_schedules (db : DB) (sid : Nat) (u : String) (now : Int) :
    (check_wake db sid u now).schedules = db.schedules := by
  unfold check_wake
  cases find_schedule db.schedules sid <;> rfl

theorem check_depart_schedules (db : DB) (sid : Nat) (u : String) (now : Int) :
    (check_depart db sid u now).schedules = db.schedules := by
  unfold check_depart
  cases find_schedule db.schedules sid <;> rfl

theorem check_arrive_schedules (db : DB) (sid : Nat) (u : String) (now : Int)
    (ph : String) :
    (check_arrive db sid u now ph).schedules = db.schedules := by
  unfold check_arrive
  cases find_schedule db.schedules sid <;> rfl

theorem check_wake_checkins (db : DB) {sid : Nat} {s0 : Schedule} (u : String)
    (hs0 : find_schedule db.schedules sid = some s0) (now : Int) :
    (check_wake db sid u now).checkins =
      confirm_fold u (apply_wake now) (wake_siblings db.schedules s0 u)
        db.checkins := by
  unfold check_wake
  rw [hs0]

theorem check_depart_checkins (db : DB) {sid : Nat} {s0 : Schedule} (u : String)
    (hs0 : find_schedule db.schedules sid = some s0) (now : Int) :
    (check_depart db sid u now).checkins =
      confirm_fold u (apply_depart now) (venue_siblings db.schedules s0 u)
        db.checkins := by
  unfold check_depart
  rw [hs0]

theorem check_arrive_checkins (db : DB) {sid : Nat} {s0 : Schedule} (u : String)
    (hs0 : find_schedule db.schedules sid = some s0) (now : Int) (ph : String) :
    (check_arrive db sid u now ph).checkins =
      confirm_fold u (apply_arrive now ph) (venue_siblings db.schedules s0 u)
        db.checkins := by
  unfold check_arrive
  rw [hs0]

/-! Claim C4: the scope of each confirmation kind. -/

/-- C4: a wake confirmation is scoped to exactly the schedules with the
reference schedule's wedding_date to which the photographer is assigned,
independent of venue; depart and arrive confirmations are additionally
scoped to the reference schedule's exact venue string.  Checkin rows
outside the sibling set are untouched, and every sibling's row receives
the confirmation. -/
theorem confirm_scope_spec (db : DB) (sid : Nat) (u : String) (s0 : Schedule)
    (now : Int) (photo : String)
    (hs0 : find_schedule db.schedules sid = some s0) :
    (∀ s, s ∈ wake_siblings db.schedules s0 u ↔
      s ∈ db.schedules ∧ s.wedding_date = s0.wedding_date ∧
        (s.main_name = some u ∨ s.sub_name = some u)) ∧
    (∀ s, s ∈ venue_siblings db.schedules s0 u ↔
      s ∈ db.schedules ∧ s.wedding_date = s0.wedding_date ∧
        s.venue = s0.venue ∧ (s.main_name = some u ∨ s.sub_name = some u)) ∧
    (∀ sid2 p2,
      (∀ s ∈ wake_siblings db.schedules s0 u, ¬(s.id = sid2 ∧ u = p2)) →
      find_checkin (check_wake db sid u now).checkins sid2 p2 =
        find_checkin db.checkins sid2 p2) ∧
    (∀ s ∈ wake_siblings db.schedules s0 u,
      (find_checkin (check_wake db sid u now).checkins s.id u).bind
          Checkin.wake_time =
        some (((find_checkin db.checkins s.id u).bind
          Checkin.wake_time).getD now)) ∧
    (∀ sid2 p2,
      (∀ s ∈ venue_siblings db.schedules s0 u, ¬(s.id = sid2 ∧ u = p2)) →
      find_checkin (check_depart db sid u now).checkins sid2 p2 =
        find_checkin db.checkins sid2 p2) ∧
    (∀ s ∈ venue_siblings db.schedules s0 u,
      (find_checkin (check_depart db sid u now).checkins s.id u).bind
          Checkin.depart_time =
        some (((find_checkin db.checkins s.id u).bind
          Checkin.depart_time).getD now)) ∧
    (∀ sid2 p2,
      (∀ s ∈ venue_siblings db.schedules s0 u, ¬(s.id = sid2 ∧ u = p2)) →
      find_checkin (check_arrive db sid u now photo).checkins sid2 p2 =
        find_checkin db.checkins sid2 p2) ∧
    (∀ s ∈ venue_siblings db.schedules s0 u,
      (find_checkin (check_arrive db sid u now photo).checkins s.id u).bind
          Checkin.arrive_time =
        some (((find_checkin db.checkins s.id u).bind
          Checkin.arrive_time).getD now)) := by
  refine ⟨?_, ?_, ?_, ?_, ?_, ?_, ?_, ?_⟩
  · intro s
    simp [wake_siblings, List.mem_filter, is_assigned]
  · intro s
    simp [venue_siblings, List.mem_filter, is_assigned, and_assoc]
  · intro sid2 p2 hout
    rw [check_wake_checkins db u hs0 now]
    exact find_confirm_fold_other (keeps_apply_wake now) _ _ hout
  · intro s hs
    rw [check_wake_checkins db u hs0 now]
    exact find_confirm_fold_sets (keeps_apply_wake now) (apply_wake_wake now)
      rfl _ _ ⟨s, hs, rfl⟩
  · intro sid2 p2 hout
    rw [check_depart_checkins db u hs0 now]
    exact find_confirm_fold_other (keeps_apply_depart now) _ _ hout
  · intro s hs
    rw [check_depart_checkins db u hs0 now]
    exact find_confirm_fold_sets (keeps_apply_depart now)
      (apply_depart_depart now) rfl _ _ ⟨s, hs, rfl⟩
  · intro sid2 p2 hout
    rw [check_arrive_checkins db u hs0 now photo]
    exact find_confirm_fold_other (keeps_apply_arrive now photo) _ _ hout
  · intro s hs
    rw [check_arrive_checkins db u hs0 now photo]
    exact find_confirm_fold_sets (keeps_apply_arrive now photo)
      (apply_arrive_arrive now photo) rfl _ _ ⟨s, hs, rfl⟩

/-- C4, witness: in the two-schedule fixture, the sibling schedule is in
scope for wake, its row receives the wake timestamp, and an unrelated key
is untouched. -/
theorem confirm_scope_spec_witness :
    sW2 ∈ wake_siblings dbW.schedules sW1 "김작가" ∧
    (find_checkin (check_wake dbW 1 "김작가" 500).checkins 2 "김작가").bind
      Checkin.wake_time = some 500 ∧
    find_checkin (check_wake dbW 1 "김작가" 500).checkins 9 "없는사람" =
      find_checkin dbW.checkins 9 "없는사람" := by
  have h := confirm_scope_spec dbW 1 "김작가" sW1 500 "ph.jpg" (by decide)
  have hm : sW2 ∈ wake_siblings dbW.schedules sW1 "김작가" := by decide
  refine ⟨hm, ?_, ?_⟩
  · have h4 := h.2.2.2.1 sW2 hm
    simpa [dbW, find_checkin] using h4
  · exact h.2.2.1 9 "없는사람" (by decide)

/-! Claim C6: first write wins. -/

/-- C6: confirming the same kind twice with t1 then t2 leaves the
timestamp at t1 for every sibling whose field was unset, and a timestamp
field, once set, is never overwritten by a later confirmation of the same
kind for any row. -/
theorem first_write_wins (db : DB) (sid : Nat) (u : String) (s0 : Schedule)
    (t1 t2 : Int) (ph1 ph2 : String)
    (hs0 : find_schedule db.schedules sid = some s0) (ht : t1 < t2) :
    (∀ s ∈ wake_siblings db.schedules s0 u,
      (find_checkin db.checkins s.id u).bind Checkin.wake_time = none →
      (find_checkin (check_wake (check_wake db sid u t1) sid u t2).checkins
        s.id u).bind Checkin.wake_time = some t1) ∧
    (∀ s ∈ venue_siblings db.schedules s0 u,
      (find_checkin db.checkins s.id u).bind Checkin.depart_time = none →
      (find_checkin (check_depart (check_depart db sid u t1) sid u t2).checkins
        s.id u).bind Checkin.depart_time = some t1) ∧
    (∀ s ∈ venue_siblings db.schedules s0 u,
      (find_checkin db.checkins s.id u).bind Checkin.arrive_time = none →
      (find_checkin
        (check_arrive (check_arrive db sid u t1 ph1) sid u t2 ph2).checkins
        s.id u).bind Checkin.arrive_time = some t1) ∧
    (∀ sid2 p2 v,
      (find_checkin db.checkins sid2 p2).bind Checkin.wake_time = some v →
      (find_checkin (check_wake db sid u t2).checkins sid2 p2).bind
        Checkin.wake_time = some v) ∧
    (∀ sid2 p2 v,
      (find_checkin db.checkins sid2 p2).bind Checkin.depart_time = some v →
      (find_checkin (check_depart db sid u t2).checkins sid2 p2).bind
        Checkin.depart_time = some v) ∧
    (∀ sid2 p2 v,
      (find_checkin db.checkins sid2 p2).bind Checkin.arrive_time = some v →
      (find_checkin (check_arrive db sid u t2 ph2).checkins sid2 p2).bind
        Checkin.arrive_time = some v) := by
  have hs1w : find_schedule (check_wake db sid u t1).schedules sid = some s0 := by
    rw [check_wake_schedules]
    exact hs0
  have hs1d : find_schedule (check_depart db sid u t1).schedules sid = some s0 := by
    rw [check_depart_schedules]
    exact hs0
  have hs1a : find_schedule (check_arrive db sid u t1 ph1).schedules sid =
      some s0 := by
    rw [check_arrive_schedules]
    exact hs0
  refine ⟨?_, ?_, ?_, ?_, ?_, ?_⟩
  · intro s hs hnone
    rw [check_wake_checkins _ u hs1w t2, check_wake_schedules,
      check_wake_checkins db u hs0 t1]
    apply find_confirm_fold_preserve (keeps_apply_wake t2)
      (fun c hc => by rw [apply_wake_wake, hc]; rfl)
    have hsets := find_confirm_fold_sets (keeps_apply_wake t1)
      (apply_wake_wake t1)
      (rfl : (blank_checkin s.id u).wake_time = none)
      (wake_siblings db.schedules s0 u) db.checkins ⟨s, hs, rfl⟩
    rw [hnone] at hsets
    exact hsets
  · intro s hs hnone
    rw [check_depart_checkins _ u hs1d t2, check_depart_schedules,
      check_depart_checkins db u hs0 t1]
    apply find_confirm_fold_preserve (keeps_apply_depart t2)
      (fun c hc => by rw [apply_depart_depart, hc]; rfl)
    have hsets := find_confirm_fold_sets (keeps_apply_depart t1)
      (apply_depart_depart t1)
      (rfl : (blank_checkin s.id u).depart_time = none)
      (venue_siblings db.schedules s0 u) db.checkins ⟨s, hs, rfl⟩
    rw [hnone] at hsets
    exact hsets
  · intro s hs hnone
    rw [check_arrive_checkins _ u hs1a t2 ph2, check_arrive_schedules,
      check_arrive_checkins db u hs0 t1 ph1]
    apply find_confirm_fold_preserve (keeps_apply_arrive t2 ph2)
      (fun c hc => by rw [apply_arrive_arrive, hc]; rfl)
    have hsets := find_confirm_fold_sets (keeps_apply_arrive t1 ph1)
      (apply_arrive_arrive t1 ph1)
      (rfl : (blank_checkin s.id u).arrive_time = none)
      (venue_siblings db.schedules s0 u) db.checkins ⟨s, hs, rfl⟩
    rw [hnone] at hsets
    exact hsets
  · intro sid2 p2 v hv
    rw [check_wake_checkins db u hs0 t2]
    exact find_confirm_fold_preserve (keeps_apply_wake t2)
      (fun c hc => by rw [apply_wake_wake, hc]; rfl) _ _ hv
  · intro sid2 p2 v hv
    rw [check_depart_checkins db u hs0 t2]
    exact find_confirm_fold_preserve (keeps_apply_depart t2)
      (fun c hc => by rw [apply_depart_depart, hc]; rfl) _ _ hv
  · intro sid2 p2 v hv
    rw [check_arrive_checkins db u hs0 t2 ph2]
    exact find_confirm_fold_preserve (keeps_apply_arrive t2 ph2)
      (fun c hc => by rw [apply_arrive_arrive, hc]; rfl) _ _ hv

/-- C6, witness: waking twice at 500 then 600 leaves the sibling's
wake_time at 500. -/
theorem first_write_wins_witness :
    (find_checkin (check_wake (check_wake dbW 1 "김작가" 500) 1 "김작가"
      600).checkins 2 "김작가").bind Checkin.wake_time = some 500 := by
  have h := first_write_wins dbW 1 "김작가" sW1 500 600 "a.jpg" "b.jpg"
    (by decide) (by decide)
  exact h.1 sW2 (by decide) (by decide)

/-! Claim C7: arrive backfill and last-photo-wins. -/

/-- C7: confirming arrive at t on a row with no prior wake or depart (a
row satisfying the staged invariant) sets wake, depart and arrive all to
t, and the photo reference is written unconditionally to every sibling
row, overwriting any previous value. -/
theorem arrive_backfill (db : DB) (sid : Nat) (u : String) (s0 : Schedule)
    (t : Int) (ph : String)
    (hs0 : find_schedule db.schedules sid = some s0)
    (hstaged : ∀ c ∈ db.checkins, staged c) :
    (∀ s ∈ venue_siblings db.schedules s0 u,
      (find_checkin db.checkins s.id u).bind Checkin.wake_time = none →
      (find_checkin db.checkins s.id u).bind Checkin.depart_time = none →
      (find_checkin (check_arrive db sid u t ph).checkins s.id u).bind
          Checkin.wake_time = some t ∧
      (find_checkin (check_arrive db sid u t ph).checkins s.id u).bind
          Checkin.depart_time = some t ∧
      (find_checkin (check_arrive db sid u t ph).checkins s.id u).bind
          Checkin.arrive_time = some t) ∧
    (∀ s ∈ venue_siblings db.schedules s0 u,
      (find_checkin (check_arrive db sid u t ph).checkins s.id u).bind
          Checkin.arrive_photo_path = some ph) := by
  constructor
  · intro s hs hw hd
    have ha : (find_checkin db.checkins s.id u).bind Checkin.arrive_time =
        none := by
      cases hc : find_checkin db.checkins s.id u with
      | none => rfl
      | some c =>
        rw [hc] at hd
        simp only [Option.some_bind] at hd ⊢
        have hcs := hstaged c (List.mem_of_find?_eq_some hc)
        by_contra hne
        exact hcs.1 hne hd
    rw [check_arrive_checkins db u hs0 t ph]
    refine ⟨?_, ?_, ?_⟩
    · have hsets := find_confirm_fold_sets (keeps_apply_arrive t ph)
        (apply_arrive_wake t ph)
        (rfl : (blank_checkin s.id u).wake_time = none)
        (venue_siblings db.schedules s0 u) db.checkins ⟨s, hs, rfl⟩
      rw [hw] at hsets
      exact hsets
    · have hsets := find_confirm_fold_sets (keeps_apply_arrive t ph)
        (apply_arrive_depart t ph)
        (rfl : (blank_checkin s.id u).depart_time = none)
        (venue_siblings db.schedules s0 u) db.checkins ⟨s, hs, rfl⟩
      rw [hd] at hsets
      exact hsets
    · have hsets := find_confirm_fold_sets (keeps_apply_arrive t ph)
        (apply_arrive_arrive t ph)
        (rfl : (blank_checkin s.id u).arrive_time = none)
        (venue_siblings db.schedules s0 u) db.checkins ⟨s, hs, rfl⟩
      rw [ha] at hsets
      exact hsets
  · intro s hs
    rw [check_arrive_checkins db u hs0 t ph]
    exact find_confirm_fold_const (keeps_apply_arrive t ph)
      (apply_arrive_photo t ph) _ _ ⟨s, hs, rfl⟩

/-- C7, witness: arriving at 700 backfills depart on the sibling row and
stores the photo reference there. -/
theorem arrive_backfill_witness :
    (find_checkin (check_arrive dbW 1 "김작가" 700 "ph.jpg").checkins
      2 "김작가").bind Checkin.depart_time = some 700 ∧
    (find_checkin (check_arrive dbW 1 "김작가" 700 "ph.jpg").checkins
      2 "김작가").bind Checkin.arrive_photo_path = some "ph.jpg" := by
  have h := arrive_backfill dbW 1 "김작가" sW1 700 "ph.jpg" (by decide)
    (by simp [dbW])
  have hm : sW2 ∈ venue_siblings dbW.schedules sW1 "김작가" := by decide
  exact ⟨(h.1 sW2 hm (by decide) (by decide)).2.1, h.2 sW2 hm⟩

/-! Claim C10: the staged-progress invariant. -/

/-- C10: a fresh Checkin satisfies the implication chain (arrive set
implies depart set implies wake set) vacuously, and each of the three
confirmation endpoints preserves the chain for every row. -/
theorem staged_invariant (db : DB) (sid : Nat) (u : String) (t : Int)
    (ph : String) (h : ∀ c ∈ db.checkins, staged c) :
    staged (blank_checkin sid u) ∧
    (∀ c ∈ (check_wake db sid u t).checkins, staged c) ∧
    (∀ c ∈ (check_depart db sid u t).checkins, staged c) ∧
    (∀ c ∈ (check_arrive db sid u t ph).checkins, staged c) := by
  refine ⟨staged_blank sid u, ?_, ?_, ?_⟩
  · unfold check_wake
    cases hfs : find_schedule db.schedules sid with
    | none => exact h
    | some s0 =>
      exact mem_confirm_fold staged (staged_apply_wake t)
        (fun sid1 => staged_apply_wake t _ (staged_blank sid1 u)) _ _ h
  · unfold check_depart
    cases hfs : find_schedule db.schedules sid with
    | none => exact h
    | some s0 =>
      exact mem_confirm_fold staged (fun c _ => staged_apply_depart t c)
        (fun sid1 => staged_apply_depart t _) _ _ h
  · unfold check_arrive
    cases hfs : find_schedule db.schedules sid with
    | none => exact h
    | some s0 =>
      exact mem_confirm_fold staged (fun c _ => staged_apply_arrive t ph c)
        (fun sid1 => staged_apply_arrive t ph _) _ _ h

/-- C10, witness: the invariant holds for the fresh row and for a row
actually produced by a wake confirmation on the fixture. -/
theorem staged_invariant_witness :
    staged (blank_checkin 3 "강작가") ∧
    staged { schedule_id := 2, photographer_name := "김작가",
             wake_time := some 500 } := by
  have h := staged_invariant dbW 1 "김작가" 500 "ph.jpg" (by simp [dbW])
  refine ⟨staged_invariant dbW 3 "강작가" 500 "ph.jpg" (by simp [dbW]) |>.1, ?_⟩
  apply h.2.1
  decide

/-! Helper lemmas for the alert evaluator. -/

theorem own_ok_iff (cks : List Checkin) (sid : Nat) (name : String)
    (g : Checkin → Option Int) :
    own_ok cks sid name g = true ↔
      ∃ c, find_checkin cks sid name = some c ∧ g c ≠ none := by
  unfold own_ok
  cases h : find_checkin cks sid name <;>
    simp [h, Option.isSome_iff_ne_none]

theorem group_ok_iff (db : DB) (s : Schedule) (name : String)
    (g : Checkin → Option Int) :
    group_ok db s name g = true ↔
      ∃ c ∈ db.checkins, c.photographer_name = name ∧ g c ≠ none ∧
        ∃ s2 ∈ db.schedules, s2.id = c.schedule_id ∧
          s2.wedding_date = s.wedding_date ∧ s2.venue = s.venue := by
  unfold group_ok
  simp [List.any_eq_true, Option.isSome_iff_ne_none, and_assoc]

theorem overdue_flag_iff (dl : Option Int) (now : Int) (ok : Bool) :
    overdue_flag dl now ok = true ↔
      ∃ d, dl = some d ∧ d ≤ now ∧ ok = false := by
  cases dl <;> cases ok <;> simp [overdue_flag]

theorem eval_flags_wake_ok (db : DB) (s : Schedule) (name : String)
    (now : Int) (tm : Option Int) :
    (eval_flags db s name now tm).wake_ok =
      own_ok db.checkins s.id name Checkin.wake_time := rfl

theorem eval_flags_depart_ok (db : DB) (s : Schedule) (name : String)
    (now : Int) (tm : Option Int) :
    (eval_flags db s name now tm).depart_ok =
      (own_ok db.checkins s.id name Checkin.depart_time ||
        group_ok db s name Checkin.depart_time) := by
  unfold eval_flags
  cases h : own_ok db.checkins s.id name Checkin.depart_time <;> simp [h]

theorem eval_flags_arrive_ok (db : DB) (s : Schedule) (name : String)
    (now : Int) (tm : Option Int) :
    (eval_flags db s name now tm).arrive_ok =
      (own_ok db.checkins s.id name Checkin.arrive_time ||
        group_ok db s name Checkin.arrive_time) := by
  unfold eval_flags
  cases h : own_ok db.checkins s.id name Checkin.arrive_time <;> simp [h]

theorem eval_flags_wake_overdue (db : DB) (s : Schedule) (name : String)
    (now : Int) (tm : Option Int) :
    (eval_flags db s name now tm).wake_overdue =
      overdue_flag (compute_deadlines s tm).wake_deadline now
        (eval_flags db s name now tm).wake_ok := rfl

theorem eval_flags_depart_overdue (db : DB) (s : Schedule) (name : String)
    (now : Int) (tm : Option Int) :
    (eval_flags db s name now tm).depart_overdue =
      overdue_flag (compute_deadlines s tm).depart_deadline now
        (eval_flags db s name now tm).depart_ok := rfl

theorem eval_flags_arrive_overdue (db : DB) (s : Schedule) (name : String)
    (now : Int) (tm : Option Int) :
    (eval_flags db s name now tm).arrive_overdue =
      overdue_flag (compute_deadlines s tm).arrival_target_dt now
        (eval_flags db s name now tm).arrive_ok := rfl

/-! Claim C2: the alert evaluator's ok and overdue flags. -/

/-- C2, counterexample: wake_ok has no grouped fallback in the code.  On
the fixture, schedule 2's own Checkin is missing while a Checkin of the
same photographer on the same date and venue has wake_time set, yet
wake_ok is false. -/
theorem eval_wake_no_group_cex :
    (eval_flags dbAlert sAlertB "박작가" 1062720600 none).wake_ok = false ∧
    (∃ c ∈ dbAlert.checkins, c.photographer_name = "박작가" ∧
      c.wake_time ≠ none ∧ ∃ s2 ∈ dbAlert.schedules,
        s2.id = c.schedule_id ∧ s2.wedding_date = sAlertB.wedding_date ∧
          s2.venue = sAlertB.venue) := by
  decide

/-- C2, amended: wake_ok is solely the schedule's own Checkin having
wake_time set (no grouped fallback); depart_ok and arrive_ok are the own
Checkin's field, or any Checkin of the same photographer on the same
wedding_date and venue having it set; each overdue flag holds iff its
deadline is defined, now has reached it, and the action is not ok, so an
absent wedding_time never produces an overdue flag. -/
theorem eval_flags_spec (db : DB) (s : Schedule) (name : String) (now : Int)
    (tm : Option Int) :
    ((eval_flags db s name now tm).wake_ok = true ↔
      ∃ c, find_checkin db.checkins s.id name = some c ∧
        c.wake_time ≠ none) ∧
    ((eval_flags db s name now tm).depart_ok = true ↔
      ((∃ c, find_checkin db.checkins s.id name = some c ∧
          c.depart_time ≠ none) ∨
        ∃ c ∈ db.checkins, c.photographer_name = name ∧
          c.depart_time ≠ none ∧ ∃ s2 ∈ db.schedules,
            s2.id = c.schedule_id ∧ s2.wedding_date = s.wedding_date ∧
              s2.venue = s.venue)) ∧
    ((eval_flags db s name now tm).arrive_ok = true ↔
      ((∃ c, find_checkin db.checkins s.id name = some c ∧
          c.arrive_time ≠ none) ∨
        ∃ c ∈ db.checkins, c.photographer_name = name ∧
          c.arrive_time ≠ none ∧ ∃ s2 ∈ db.schedules,
            s2.id = c.schedule_id ∧ s2.wedding_date = s.wedding_date ∧
              s2.venue = s.venue)) ∧
    ((eval_flags db s name now tm).wake_overdue = true ↔
      ∃ d, (compute_deadlines s tm).wake_deadline = some d ∧ d ≤ now ∧
        (eval_flags db s name now tm).wake_ok = false) ∧
    ((eval_flags db s name now tm).depart_overdue = true ↔
      ∃ d, (compute_deadlines s tm).depart_deadline = some d ∧ d ≤ now ∧
        (eval_flags db s name now tm).depart_ok = false) ∧
    ((eval_flags db s name now tm).arrive_overdue = true ↔
      ∃ d, (compute_deadlines s tm).arrival_target_dt = some d ∧ d ≤ now ∧
        (eval_flags db s name now tm).arrive_ok = false) ∧
    (s.wedding_time = none →
      (eval_flags db s name now tm).wake_overdue = false ∧
      (eval_flags db s name now tm).depart_overdue = false ∧
      (eval_flags db s name now tm).arrive_overdue = false) := by
  refine ⟨?_, ?_, ?_, ?_, ?_, ?_, ?_⟩
  · rw [eval_flags_wake_ok]
    exact own_ok_iff db.checkins s.id name Checkin.wake_time
  · rw [eval_flags_depart_ok, Bool.or_eq_true, own_ok_iff, group_ok_iff]
  · rw [eval_flags_arrive_ok, Bool.or_eq_true, own_ok_iff, group_ok_iff]
  · rw [eval_flags_wake_overdue]
    exact overdue_flag_iff _ now _
  · rw [eval_flags_depart_overdue]
    exact overdue_flag_iff _ now _
  · rw [eval_flags_arrive_overdue]
    exact overdue_flag_iff _ now _
  · intro hwt
    rw [eval_flags_wake_overdue, eval_flags_depart_overdue,
      eval_flags_arrive_overdue]
    simp [compute_deadlines, hwt, overdue_flag]

/-- C2, witness of the amended theorem: on the fixture, schedule 1's own
wake Checkin makes wake_ok true, and schedule 2 is depart-overdue once
now has passed its depart deadline (no Checkin has depart set). -/
theorem eval_flags_spec_witness :
    (eval_flags dbAlert sAlertA "박작가" 1062720600 none).wake_ok = true ∧
    (eval_flags dbAlert sAlertB "박작가" 1062720660 none).depart_overdue =
      true := by
  constructor
  · exact (eval_flags_spec dbAlert sAlertA "박작가" 1062720600 none).1.mpr
      ⟨{ schedule_id := 1, photographer_name := "박작가",
         wake_time := some 1062720540 }, by decide, by decide⟩
  · exact (eval_flags_spec dbAlert sAlertB "박작가" 1062720660
      none).2.2.2.2.1.mpr ⟨1062720660, by decide, by decide, by decide⟩

/-! Helper lemmas for the schedule-edit operation. -/

theorem find_schedule_id {l : List Schedule} {sid : Nat} {s : Schedule}
    (h : find_schedule l sid = some s) : s.id = sid := by
  have h2 := List.find?_some h
  simpa using h2

theorem find_schedule_map_replace (l : List Schedule) (sid : Nat)
    (x : Schedule) (hx : x.id = sid) {s : Schedule}
    (hs : find_schedule l sid = some s) :
    find_schedule (l.map (fun t => if t.id == sid then x else t)) sid =
      some x := by
  induction l with
  | nil => simp [find_schedule] at hs
  | cons a as ih =>
    by_cases ha : (a.id == sid) = true
    · simp only [List.map_cons, ha, if_true]
      exact List.find?_cons_of_pos _ (by simp [hx])
    · have ha' : (a.id == sid) = false := by
        cases hh : (a.id == sid)
        · rfl
        · exact absurd hh ha
      simp only [List.map_cons, ha', Bool.false_eq_true, if_false]
      unfold find_schedule at hs ⊢
      rw [List.find?_cons_of_neg _ (by simp [ha'])] at hs ⊢
      exact ih hs

theorem venue_registry_step_fields (venues : List Venue) (s3 : Schedule) :
    (venue_registry_step venues s3).1.id = s3.id ∧
    (venue_registry_step venues s3).1.wedding_date = s3.wedding_date ∧
    (venue_registry_step venues s3).1.wedding_time = s3.wedding_time ∧
    (venue_registry_step venues s3).1.shoot_start_time = s3.shoot_start_time ∧
    (venue_registry_step venues s3).1.arrival_target_time =
      s3.arrival_target_time := by
  unfold venue_registry_step
  cases s3.venue_address with
  | none =>
    cases venues.find? (fun x => x.name == s3.venue) with
    | none => exact ⟨rfl, rfl, rfl, rfl, rfl⟩
    | some vv =>
      by_cases hv : strTruthy vv.address = true
      · simp [hv]
      · have hv' : strTruthy vv.address = false := by
          cases hh : strTruthy vv.address
          · rfl
          · exact absurd hh hv
        simp [hv']
  | some a => exact ⟨rfl, rfl, rfl, rfl, rfl⟩

theorem admin_edit_schedule_save_eq (db : DB) {sid : Nat} {s : Schedule}
    (hs : find_schedule db.schedules sid = some s) (d : Int)
    (wt : Option Int) (v : String) (va : Option String)
    (st att : Option Int) (mn sb : Option String) :
    admin_edit_schedule_save db sid d wt v va st att mn sb =
      { db with
        schedules := db.schedules.map (fun t =>
          if t.id == sid then
            (venue_registry_step db.venues
              (edited_schedule s d wt v va st att mn sb)).1
          else t)
        venues := (venue_registry_step db.venues
          (edited_schedule s d wt v va st att mn sb)).2 } := by
  unfold admin_edit_schedule_save
  rw [hs]

theorem edited_schedule_arrival (s : Schedule) (d wt : Int) (v : String)
    (va : Option String) (mn sb : Option String) :
    (edited_schedule s d (some wt) v va none none mn sb).arrival_target_time =
      some (timeOfDay (combine d (timeOfDay (combine d wt - 60)) - 30)) := rfl

theorem edited_schedule_wt (s : Schedule) (d wt : Int) (v : String)
    (va : Option String) (mn sb : Option String) :
    (edited_schedule s d (some wt) v va none none mn sb).wedding_time =
      some wt := rfl

theorem edited_schedule_wd (s : Schedule) (d wt : Int) (v : String)
    (va : Option String) (mn sb : Option String) :
    (edited_schedule s d (some wt) v va none none mn sb).wedding_date =
      d := rfl

theorem edited_schedule_id (s : Schedule) (d : Int) (wt : Option Int)
    (v : String) (va : Option String) (st att : Option Int)
    (mn sb : Option String) :
    (edited_schedule s d wt v va st att mn sb).id = s.id := rfl

theorem compute_deadlines_fallback (s : Schedule) (tm : Option Int)
    (d wt : Int) (hwt : s.wedding_time = some wt)
    (hat : s.arrival_target_time = none) (hwd : s.wedding_date = d) :
    (compute_deadlines s tm).arrival_target_dt =
      some (combine d ((wt - 120) % 1440)) := by
  simp only [compute_deadlines, hwt, hat, hwd]
  unfold combine timeOfDay
  congr 1
  omega

/-! Claim C5: the two arrival-target fallbacks disagree. -/

/-- C5, counterexample: editing a schedule with wedding_time 13:00 and
both time fields blank stores arrival_target_time 11:30 (wedding − 1h −
30min), while the deadline calculator's read-time fallback re-derives
11:00 (wedding − 2h); the two differ. -/
theorem arrival_fallbacks_cex :
    ∃ s2, find_schedule (admin_edit_schedule_save dbEditTimes 1 738000
        (some 780) "C홀" none none none none none).schedules 1 = some s2 ∧
      s2.arrival_target_time = some 690 ∧
      (compute_deadlines { s2 with arrival_target_time := none }
        none).arrival_target_dt = some (combine 738000 660) ∧
      combine 738000 690 ≠ combine 738000 660 := by
  refine ⟨{ id := 1, wedding_date := 738000, wedding_time := some 780,
            shoot_start_time := some 720, venue := "C홀",
            arrival_target_time := some 690 }, ?_, ?_, ?_, ?_⟩ <;> decide

/-- C5, amended: when both time fields are blank at edit time and
wedding_time is set to wt, the stored arrival target is the time-of-day
of wt − 90 minutes, while the deadline calculator re-derives the
time-of-day of wt − 120 minutes; for wt at or after 02:00 the stored
target is exactly 30 minutes later than the re-derived one, so the two
fallbacks never agree. -/
theorem arrival_fallbacks_offset (db : DB) (sid : Nat) (s : Schedule)
    (d wt : Int) (v : String) (va : Option String) (mn sb : Option String)
    (tm : Option Int) (hs : find_schedule db.schedules sid = some s)
    (h0 : 0 ≤ wt) (h1 : wt < 1440) :
    ∃ s2, find_schedule (admin_edit_schedule_save db sid d (some wt) v va
        none none mn sb).schedules sid = some s2 ∧
      s2.arrival_target_time = some ((wt - 90) % 1440) ∧
      (compute_deadlines { s2 with arrival_target_time := none }
        tm).arrival_target_dt = some (combine d ((wt - 120) % 1440)) ∧
      (120 ≤ wt → (wt - 90) % 1440 = (wt - 120) % 1440 + 30) := by
  rw [admin_edit_schedule_save_eq db hs d (some wt) v va none none mn sb]
  have hf := venue_registry_step_fields db.venues
    (edited_schedule s d (some wt) v va none none mn sb)
  refine ⟨(venue_registry_step db.venues
    (edited_schedule s d (some wt) v va none none mn sb)).1, ?_, ?_, ?_, ?_⟩
  · exact find_schedule_map_replace db.schedules sid _
      (by rw [hf.1, edited_schedule_id]; exact find_schedule_id hs) hs
  · rw [hf.2.2.2.2, edited_schedule_arrival]
    unfold timeOfDay combine
    congr 1
    omega
  · refine compute_deadlines_fallback _ tm d wt ?_ rfl ?_
    · show (venue_registry_step db.venues
        (edited_schedule s d (some wt) v va none none mn sb)).1.wedding_time =
          some wt
      rw [hf.2.2.1, edited_schedule_wt]
    · show (venue_registry_step db.venues
        (edited_schedule s d (some wt) v va none none mn sb)).1.wedding_date =
          d
      rw [hf.2.1, edited_schedule_wd]
  · intro h120
    omega

/-- C5, witness of the amended theorem on the concrete fixture. -/
theorem arrival_fallbacks_offset_witness :
    ∃ s2, find_schedule (admin_edit_schedule_save dbEditTimes 1 738000
        (some 780) "C홀" none none none none none).schedules 1 = some s2 ∧
      s2.arrival_target_time = some 690 := by
  obtain ⟨s2, hfind, htarget, _, _⟩ := arrival_fallbacks_offset dbEditTimes 1
    { id := 1, wedding_date := 738000, venue := "C홀" } 738000 780 "C홀"
    none none none none (by decide) (by decide) (by decide)
  exact ⟨s2, hfind, by rw [htarget]; decide⟩

/-! Claim C8: route-estimate invalidation on venue-address change. -/

/-- C8, counterexample: a direct schedule edit that changes the venue
address leaves the schedule's cached RouteEstimate rows untouched; only
hall-address propagation deletes them. -/
theorem edit_keeps_routes_cex :
    (find_schedule dbEditRoutes.schedules 1).map Schedule.venue_address =
      some (some "주소A") ∧
    (find_schedule (admin_edit_schedule_save dbEditRoutes 1 738000 none "D홀"
      (some "주소B") none none none none).schedules 1).map
        Schedule.venue_address = some (some "주소B") ∧
    (admin_edit_schedule_save dbEditRoutes 1 738000 none "D홀" (some "주소B")
      none none none none).routes = dbEditRoutes.routes ∧
    dbEditRoutes.routes =
      [{ schedule_id := 1, photographer_name := "최작가", minutes := 30 }] := by
  decide

/-- C8, amended: hall-address propagation deletes every cached
RouteEstimate row of a schedule whose venue address it changes and leaves
rows of schedules at other venues untouched; a direct schedule edit never
touches the RouteEstimate table, even when it changes the venue address. -/
theorem route_invalidation_spec :
    (∀ (db : DB) (hall addr : String) (s : Schedule),
      pystrip hall ≠ "" → pystrip addr ≠ "" → s ∈ db.schedules →
      s.venue = pystrip hall →
      pystrip (s.venue_address.getD "") ≠ pystrip addr →
      ∀ r ∈ (propagate_hall_address db hall addr).routes,
        r.schedule_id ≠ s.id) ∧
    (∀ (db : DB) (hall addr : String) (r : RouteEstimate),
      r ∈ db.routes →
      (∀ s ∈ db.schedules, s.venue = pystrip hall → s.id ≠ r.schedule_id) →
      r ∈ (propagate_hall_address db hall addr).routes) ∧
    (∀ (db : DB) (sid : Nat) (d : Int) (wt : Option Int) (v : String)
      (va : Option String) (st att : Option Int) (mn sb : Option String),
      (admin_edit_schedule_save db sid d wt v va st att mn sb).routes =
        db.routes) := by
  refine ⟨?_, ?_, ?_⟩
  · intro db hall addr s h1 h2 hs hv hdiff r hr
    have hb1 : (pystrip hall == "") = false := beq_eq_false_iff_ne.mpr h1
    have hb2 : (pystrip addr == "") = false := beq_eq_false_iff_ne.mpr h2
    have hneed : needs_update (pystrip hall) (pystrip addr) s = true := by
      unfold needs_update
      rw [beq_iff_eq.mpr hv, beq_eq_false_iff_ne.mpr hdiff]
      rfl
    have hpos : ¬(db.schedules.countP
        (needs_update (pystrip hall) (pystrip addr)) = 0) := by
      have := List.countP_pos_iff.mpr ⟨s, hs, hneed⟩
      omega
    have hcp : (db.schedules.countP
        (needs_update (pystrip hall) (pystrip addr)) == 0) = false := by
      exact beq_eq_false_iff_ne.mpr hpos
    simp only [propagate_hall_address, hb1, hb2, hcp, Bool.or_self,
      Bool.false_eq_true, if_false] at hr
    have hpred := (List.mem_filter.mp hr).2
    rw [Bool.not_eq_true'] at hpred
    have hall2 := List.any_eq_false.mp hpred s hs
    intro heq
    apply hall2
    rw [beq_iff_eq.mpr hv, beq_iff_eq.mpr heq.symm]
    rfl
  · intro db hall addr r hr hother
    by_cases hc1 : (pystrip hall == "" || pystrip addr == "") = true
    · simpa [propagate_hall_address, hc1] using hr
    · have hc1' : (pystrip hall == "" || pystrip addr == "") = false :=
        Bool.eq_false_iff.mpr hc1
      by_cases hc2 : (db.schedules.countP
          (needs_update (pystrip hall) (pystrip addr)) == 0) = true
      · simpa [propagate_hall_address, hc1', hc2] using hr
      · have hc2' : (db.schedules.countP
            (needs_update (pystrip hall) (pystrip addr)) == 0) = false :=
          Bool.eq_false_iff.mpr hc2
        simp only [propagate_hall_address, hc1', hc2', Bool.false_eq_true,
          if_false]
        refine List.mem_filter.mpr ⟨hr, ?_⟩
        rw [Bool.not_eq_true']
        rw [List.any_eq_false]
        intro s' hs' hb
        have hb2 : s'.venue = pystrip hall ∧ s'.id = r.schedule_id := by
          simpa using hb
        exact hother s' hs' hb2.1 hb2.2
  · intro db sid d wt v va st att mn sb
    unfold admin_edit_schedule_save
    cases h : find_schedule db.schedules sid <;> rfl

/-- C8, witness: propagating a new address for one hall keeps the other
venue's cached route and deletes the changed venue's cached route. -/
theorem route_invalidation_spec_witness :
    ({ schedule_id := 2, photographer_name := "김작가", minutes := 40 } :
        RouteEstimate) ∈
      (propagate_hall_address dbProp "F홀" "새주소").routes ∧
    ({ schedule_id := 1, photographer_name := "김작가", minutes := 20 } :
        RouteEstimate) ∉
      (propagate_hall_address dbProp "F홀" "새주소").routes := by
  constructor
  · exact route_invalidation_spec.2.1 dbProp "F홀" "새주소"
      { schedule_id := 2, photographer_name := "김작가", minutes := 40 }
      (by decide) (by decide)
  · intro hmem
    exact route_invalidation_spec.1 dbProp "F홀" "새주소"
      { id := 1, wedding_date := 738000, venue := "F홀",
        venue_address := some "옛주소" }
      (by decide) (by decide) (by decide) (by decide) (by decide) _ hmem rfl

/-! Claim C9: photographer deletion. -/

/-- C9, counterexample: the bootstrap admin is a Photographer row
referenced by no schedule, yet deleting it is refused and the row
remains, because the endpoint refuses any is_admin row. -/
theorem delete_admin_cex :
    dbAdminDel.schedules = [] ∧
    ({ id := 1, name := "관리자", is_admin := true } : Photographer) ∈
      dbAdminDel.photographers ∧
    admin_delete_photographer dbAdminDel 1 = dbAdminDel := by
  decide

/-- C9, amended: deleting a photographer referenced by any schedule as
main or sub is refused and leaves the state unchanged; an admin row is
never deletable regardless of references; deleting a non-admin
photographer referenced by no schedule removes the Photographer row and
every Checkin bearing the name, leaving schedules and routes unchanged. -/
theorem delete_photographer_spec (db : DB) (pid : Nat) (p : Photographer)
    (hp : db.photographers.find? (fun q => q.id == pid) = some p) :
    ((∃ s ∈ db.schedules,
        s.main_name = some p.name ∨ s.sub_name = some p.name) →
      admin_delete_photographer db pid = db) ∧
    (p.is_admin = true → admin_delete_photographer db pid = db) ∧
    (p.is_admin = false →
      (∀ s ∈ db.schedules,
        s.main_name ≠ some p.name ∧ s.sub_name ≠ some p.name) →
      ((∀ q, q ∈ (admin_delete_photographer db pid).photographers ↔
          q ∈ db.photographers ∧ q.id ≠ pid) ∧
        (∀ c, c ∈ (admin_delete_photographer db pid).checkins ↔
          c ∈ db.checkins ∧ c.photographer_name ≠ p.name) ∧
        (admin_delete_photographer db pid).schedules = db.schedules ∧
        (admin_delete_photographer db pid).routes = db.routes)) := by
  refine ⟨?_, ?_, ?_⟩
  · rintro ⟨s, hs, hname⟩
    have hany : db.schedules.any (fun s => s.main_name == some p.name ||
        s.sub_name == some p.name) = true := by
      rw [List.any_eq_true]
      refine ⟨s, hs, ?_⟩
      rcases hname with h | h <;> simp [h]
    unfold admin_delete_photographer
    rw [hp]
    cases hadm : p.is_admin <;> simp [hany]
  · intro hadm
    unfold admin_delete_photographer
    rw [hp]
    simp [hadm]
  · intro hadm hnone
    have hany : db.schedules.any (fun s => s.main_name == some p.name ||
        s.sub_name == some p.name) = false := by
      rw [List.any_eq_false]
      intro s hs
      rcases hnone s hs with ⟨h1', h2'⟩
      simp [h1', h2']
    have heq : admin_delete_photographer db pid =
        { db with
          checkins := db.checkins.filter
            (fun c => !(c.photographer_name == p.name))
          photographers := db.photographers.filter
            (fun q => !(q.id == pid)) } := by
      unfold admin_delete_photographer
      rw [hp]
      simp [hadm, hany]
    rw [heq]
    refine ⟨fun q => ?_, fun c => ?_, rfl, rfl⟩
    · simp [List.mem_filter]
    · simp [List.mem_filter]

/-- C9, witness: deleting a referenced photographer is refused; deleting
an unreferenced non-admin removes the Photographer row. -/
theorem delete_photographer_spec_witness :
    admin_delete_photographer dbDelRef 3 = dbDelRef ∧
    ({ id := 2, name := "정작가" } : Photographer) ∉
      (admin_delete_photographer dbDelW 2).photographers := by
  constructor
  · exact (delete_photographer_spec dbDelRef 3 { id := 3, name := "한작가" }
      (by decide)).1 ⟨{ id := 5, wedding_date := 738000, venue := "H홀",
                        main_name := some "한작가" }, by decide, Or.inl rfl⟩
  · intro hmem
    have h3 := ((delete_photographer_spec dbDelW 2 { id := 2, name := "정작가" }
      (by decide)).2.2 rfl (by simp [dbDelW])).1 { id := 2, name := "정작가" }
    exact (h3.mp hmem).2 rfl

end WS
